import Mathlib

/-
  Verification of the thrustler rendering engine core
  (crates: core, engine, vulkan, wgpu, winit-window).

  The definitions below are a shallow embedding of the source code.
  External GPU and window-system collaborators (vulkano, wgpu, winit)
  appear as explicit outcome parameters: every fallible call the source
  makes to a collaborator is given by a field of an environment value,
  and the embedding computes exactly what the source does with those
  outcomes.  f32 vertex coordinates are modelled as integer pairs: no
  function in the embedded core ever computes with a coordinate, it only
  copies them and takes list lengths.
-/

namespace Thrustler

/-- Window size from src/crates/core/src/lib.rs (struct Size). -/
structure Size where
  width : Nat
  height : Nat
deriving DecidableEq

/-- Modelled from the spec: the source calls Size::default() in
EngineSettingsBuilder::build, but core::Size under src/ has no Default
derive or impl; spec section 6 gives the default window size 800x600. -/
def Size.default : Size := ⟨800, 600⟩

/-- A 2D vertex from src/crates/core/src/game_objects.rs; the f32 pair is
modelled as an integer pair, the core only copies it around. -/
structure Vertex where
  position : Int × Int
deriving DecidableEq

/-- src/crates/core/src/game_objects.rs: GameObject has a Uuid identity
(modelled as Nat) and a vertex list. -/
structure GameObject where
  id : Nat
  vertices : List Vertex
deriving DecidableEq

/-- src/crates/core/src/lib.rs: enum WindowEvent. -/
inductive WindowEvent
  | OnStart
  | OnDraw
  | OnStop
deriving DecidableEq

/-- src/crates/core/src/error.rs: enum ThrustlerError, exactly these three
variants. -/
inductive ThrustlerError
  | WindowError
  | GraphicalBackendError
  | EngineError
deriving DecidableEq

/-- src/crates/winit-window/src/error.rs: enum ThrustlerWindowError. -/
inductive ThrustlerWindowError
  | UnableToCreateWindow
  | WindowLoopError
deriving DecidableEq

namespace Vulkan

/-- src/crates/vulkan/src/vulkano_tools.rs: struct VulkanVertex. -/
structure VulkanVertex where
  position : Int × Int
deriving DecidableEq

/-- vulkano_tools.rs, impl IntoVulkanoVertices for GameObject:
`self.vertices.iter().map(|vertex| vertex.into()).collect()`. -/
def toVulkanoVertices (g : GameObject) : List VulkanVertex :=
  g.vertices.map (fun v => ⟨v.position⟩)

/-- A vulkano Subbuffer of vertices.  uploadId tags the allocation
(Buffer::from_iter call) that produced it, data is its content. -/
structure Subbuffer where
  uploadId : Nat
  data : List VulkanVertex
deriving DecidableEq

/-- Subbuffer::len(), the element count of the buffer. -/
def Subbuffer.len (b : Subbuffer) : Nat := b.data.length

/-- A GPU completion token held in last_frame_fence.  `now` is
sync::now(device) (an empty, already-complete future); `fenceOf n` is the
fence-signal future returned by then_signal_fence_and_flush for the n-th
submission. -/
inductive GpuToken
  | now
  | fenceOf (submission : Nat)
deriving DecidableEq

/-- The mutable state of vulkano_tools.rs struct CommandBufferExecutor:
the identity-keyed vertex-buffer cache `subbuffer_cache`
(HashMap<Uuid, (Subbuffer, bool)> modelled as an association list), an
upload counter tagging buffer allocations, and the
`last_frame_fence: RefCell<Option<Box<dyn GpuFuture>>>` slot. -/
structure ExecutorState where
  subbuffer_cache : List (Nat × Subbuffer × Bool)
  nextUpload : Nat
  last_frame_fence : Option GpuToken
deriving DecidableEq

/-- CommandBufferExecutor::new: empty cache and
`RefCell::new(Some(sync::now(logical_device).boxed()))`. -/
def ExecutorState.new : ExecutorState := ⟨[], 0, some .now⟩

/-- `subbuffer_cache.get(&id)` restricted to the buffer component. -/
def cacheLookup (c : List (Nat × Subbuffer × Bool)) (id : Nat) :
    Option Subbuffer :=
  (c.find? (fun e => e.1 == id)).map (fun e => e.2.1)

/-- The effect of `subbuffer.1 = true` through `get_mut(&id)`: the entry
keyed `id` keeps its buffer and gets used-flag true. -/
def cacheSetUsed (c : List (Nat × Subbuffer × Bool)) (id : Nat) :
    List (Nat × Subbuffer × Bool) :=
  c.map (fun e => if e.1 == id then (e.1, e.2.1, true) else e)

/-- CommandBufferExecutor::mark_buffers_as_unused:
`values_mut().for_each(|chunk| chunk.1 = false)`. -/
def mark_buffers_as_unused (c : List (Nat × Subbuffer × Bool)) :
    List (Nat × Subbuffer × Bool) :=
  c.map (fun e => (e.1, e.2.1, false))

/-- CommandBufferExecutor::delete_all_unused_buffers: collect every key
whose used-flag is false and remove it; equivalently keep exactly the
entries whose flag is true. -/
def delete_all_unused_buffers (c : List (Nat × Subbuffer × Bool)) :
    List (Nat × Subbuffer × Bool) :=
  c.filter (fun e => e.2.2)

/-- CommandBufferExecutor::create_vertex_buffer: Buffer::from_iter over
to_vulkano_vertices; the fresh allocation is tagged with the current
upload counter. -/
def create_vertex_buffer (nextUpload : Nat) (g : GameObject) : Subbuffer :=
  ⟨nextUpload, toVulkanoVertices g⟩

/-- CommandBufferExecutor::get_subbuffer_for_game_object: on a cache hit
set the used-flag and return the cached buffer unchanged; on a miss
upload (create_vertex_buffer), insert the new entry with flag true and
return it. -/
def get_subbuffer_for_game_object (s : ExecutorState) (g : GameObject) :
    Subbuffer × ExecutorState :=
  match cacheLookup s.subbuffer_cache g.id with
  | some b => (b, { s with subbuffer_cache := cacheSetUsed s.subbuffer_cache g.id })
  | none =>
      let b := create_vertex_buffer s.nextUpload g
      (b, { s with
              subbuffer_cache := s.subbuffer_cache ++ [(g.id, b, true)],
              nextUpload := s.nextUpload + 1 })

/-- One recorded draw: the buffer bound by bind_vertex_buffers and the
vertex count passed to builder.draw(vertices_count, 1, 0, 0). -/
structure DrawCall where
  buffer : Subbuffer
  vertexCount : Nat
deriving DecidableEq

/-- The per-object loop of CommandBufferExecutor::fill_render_pass:
for each game object take its subbuffer from the cache, bind it and draw
`vertices.len() as u32` vertices. -/
def recordObjects : ExecutorState → List GameObject → List DrawCall × ExecutorState
  | s, [] => ([], s)
  | s, g :: rest =>
      let p := get_subbuffer_for_game_object s g
      let q := recordObjects p.2 rest
      (⟨p.1, p.1.len⟩ :: q.1, q.2)

/-- CommandBufferExecutor::fill_render_pass: begin the render pass (clear
to the fixed background color), bind the pipeline, mark all cache entries
unused, record every object, then delete all entries still unused. -/
def fill_render_pass (s : ExecutorState) (objs : List GameObject) :
    List DrawCall × ExecutorState :=
  let s0 := { s with subbuffer_cache := mark_buffers_as_unused s.subbuffer_cache }
  let p := recordObjects s0 objs
  (p.1, { p.2 with subbuffer_cache := delete_all_unused_buffers p.2.subbuffer_cache })

/-- vulkano_tools.rs: enum BufferExecutorResult. -/
inductive BufferExecutorResult
  | Done
  | Recreate
  | Fail
deriving DecidableEq

/-- Outcome of then_signal_fence_and_flush as classified by the source:
Ok, Validated::unwrap giving VulkanError::OutOfDate, or any other error. -/
inductive FlushOutcome
  | ok
  | outOfDate
  | otherError
deriving DecidableEq

/-- The collaborator outcomes one call to execute_buffer observes:
acquire_next_image (none = Err; some (imageIndex, suboptimal)), whether
command-buffer recording succeeds (create_command_buffer API calls),
whether then_execute succeeds, and the flush outcome. -/
structure FrameEnv where
  acquire : Option (Nat × Bool)
  recordOk : Bool
  executeOk : Bool
  flush : FlushOutcome
deriving DecidableEq

/-- The wait-list this frame joined in front of its GPU work:
`last_frame_fence.take().unwrap_or(sync::now(..)).join(swapchain_future)
.then_execute(..)`. -/
structure SubmitInfo where
  waitedOnPrevious : GpuToken
  joinedAcquireSignal : Bool
deriving DecidableEq

/-- Result of one call to CommandBufferExecutor::execute_buffer:
either a panic (an Option::unwrap on the fence slot failed) or a return
value together with the post-call state, the draws recorded, the
wait-list of the submission if one was executed, and the fence-signal
future the flush produced (which the source discards). -/
inductive FrameStep
  | panicked
  | ret (result : BufferExecutorResult) (state : ExecutorState)
        (draws : List DrawCall) (submitted : Option SubmitInfo)
        (fenceProduced : Option GpuToken)
deriving DecidableEq

/-- CommandBufferExecutor::execute_buffer, vulkano_tools.rs lines 474-526.
Control flow copied from the source:
- acquire error: return Fail, fence slot untouched;
- suboptimal acquire: `last_frame_fence.borrow_mut().as_mut().unwrap()`
  then cleanup_finished(); return Recreate, slot untouched;
- recording failure: return Fail, slot untouched;
- `last_frame_fence.take()` empties the slot, the taken token (or a fresh
  sync::now if the slot was empty) is joined with the swapchain future;
- then_execute error: return Fail with the slot left empty;
- flush Ok: the produced fence future is discarded (`map(|_future| ..)`)
  and the slot is refilled with a fresh sync::now; return Done;
- flush OutOfDate: `last_frame_fence.borrow_mut().as_mut().unwrap()` runs
  on the emptied slot, which panics;
- other flush error: return Fail with the slot left empty. -/
def execute_buffer (s : ExecutorState) (env : FrameEnv)
    (objs : List GameObject) (subId : Nat) : FrameStep :=
  match env.acquire with
  | none => .ret .Fail s [] none none
  | some acq =>
      if acq.2 then
        match s.last_frame_fence with
        | none => .panicked
        | some _ => .ret .Recreate s [] none none
      else if env.recordOk then
        let p := fill_render_pass s objs
        let prev := p.2.last_frame_fence.getD .now
        let s2 : ExecutorState := { p.2 with last_frame_fence := none }
        if env.executeOk then
          match env.flush with
          | .ok =>
              .ret .Done { s2 with last_frame_fence := some .now } p.1
                (some ⟨prev, true⟩) (some (.fenceOf subId))
          | .outOfDate => .panicked
          | .otherError => .ret .Fail s2 p.1 (some ⟨prev, true⟩) none
        else .ret .Fail s2 p.1 none none
      else .ret .Fail s [] none none

/-- The Draw side of the Engine event loop over the vulkan backend: the
window emits Draw events repeatedly; each one runs execute_buffer, whose
BufferExecutorResult the backend discards, and the loop goes on to the
next event.  A panic aborts the process, ending the trace. -/
def runDraws : ExecutorState → List (FrameEnv × List GameObject) → Nat →
    List BufferExecutorResult
  | _, [], _ => []
  | s, f :: rest, subId =>
      match execute_buffer s f.1 f.2 subId with
      | .panicked => []
      | .ret r s' _ _ _ => r :: runDraws s' rest (subId + 1)

end Vulkan

namespace Wgpu

/-- src/crates/wgpu/src/wgpu_tools.rs: struct WgpuVertex. -/
structure WgpuVertex where
  position : Int × Int
deriving DecidableEq

/-- A wgpu vertex Buffer (held as Rc<Buffer> in the cache).  uploadId tags
the create_buffer_init call that produced it. -/
structure WBuffer where
  uploadId : Nat
  data : List WgpuVertex
deriving DecidableEq

/-- The mutable state of wgpu_tools.rs struct CommandBufferExecutor:
vertices_buffer_cache (RefCell<HashMap<Uuid, (Rc<Buffer>, bool)>>,
modelled as an association list) plus an upload counter tagging buffer
allocations. -/
structure ExecState where
  vertices_buffer_cache : List (Nat × WBuffer × Bool)
  nextUpload : Nat
deriving DecidableEq

/-- wgpu CommandBufferExecutor::new: empty cache. -/
def ExecState.new : ExecState := ⟨[], 0⟩

/-- wgpu_tools.rs create_vertices_buffer: map the vertices into WgpuVertex
and create_buffer_init a fresh buffer with them. -/
def create_vertices_buffer (nextUpload : Nat) (g : GameObject) : WBuffer :=
  ⟨nextUpload, g.vertices.map (fun v => ⟨v.position⟩)⟩

/-- `vertices_buffer_cache.get(&id)` restricted to the buffer component. -/
def wcacheLookup (c : List (Nat × WBuffer × Bool)) (id : Nat) :
    Option WBuffer :=
  (c.find? (fun e => e.1 == id)).map (fun e => e.2.1)

/-- The effect of `data.1 = true` through `get_mut(&id)`. -/
def wcacheSetUsed (c : List (Nat × WBuffer × Bool)) (id : Nat) :
    List (Nat × WBuffer × Bool) :=
  c.map (fun e => if e.1 == id then (e.1, e.2.1, true) else e)

/-- wgpu CommandBufferExecutor::get_buffer_slice_for_game_object: on a hit
set the used-flag and return the cached Rc<Buffer> clone; on a miss create
the buffer, insert it with flag true and return it. -/
def get_buffer_slice_for_game_object (s : ExecState) (g : GameObject) :
    WBuffer × ExecState :=
  match wcacheLookup s.vertices_buffer_cache g.id with
  | some b => (b, { s with vertices_buffer_cache := wcacheSetUsed s.vertices_buffer_cache g.id })
  | none =>
      let b := create_vertices_buffer s.nextUpload g
      (b, { s with
              vertices_buffer_cache := s.vertices_buffer_cache ++ [(g.id, b, true)],
              nextUpload := s.nextUpload + 1 })

/-- wgpu CommandBufferExecutor::mark_buffers_as_unused. -/
def wmark_buffers_as_unused (c : List (Nat × WBuffer × Bool)) :
    List (Nat × WBuffer × Bool) :=
  c.map (fun e => (e.1, e.2.1, false))

/-- wgpu CommandBufferExecutor::delete_all_unused_buffers: remove every
entry whose used-flag is still false. -/
def wdelete_all_unused_buffers (c : List (Nat × WBuffer × Bool)) :
    List (Nat × WBuffer × Bool) :=
  c.filter (fun e => e.2.2)

/-- One recorded wgpu draw: the buffer bound by set_vertex_buffer and the
vertex range passed to render_pass.draw, which in the source is the
literal `0..3` for every object. -/
structure WDrawCall where
  buffer : WBuffer
  firstVertex : Nat
  vertexCount : Nat
deriving DecidableEq

/-- The per-object loop of wgpu fill_render_pass: take the buffer from the
cache, set_vertex_buffer, then `render_pass.draw(0..3, 0..1)`. -/
def wrecordObjects : ExecState → List GameObject → List WDrawCall × ExecState
  | s, [] => ([], s)
  | s, g :: rest =>
      let p := get_buffer_slice_for_game_object s g
      let q := wrecordObjects p.2 rest
      (⟨p.1, 0, 3⟩ :: q.1, q.2)

/-- wgpu CommandBufferExecutor::fill_render_pass: begin the render pass
clearing to the fixed color, set the pipeline, mark all entries unused,
record every object, delete all entries still unused, finish encoding. -/
def wfill_render_pass (s : ExecState) (objs : List GameObject) :
    List WDrawCall × ExecState :=
  let s0 := { s with vertices_buffer_cache := wmark_buffers_as_unused s.vertices_buffer_cache }
  let p := wrecordObjects s0 objs
  (p.1, { p.2 with vertices_buffer_cache := wdelete_all_unused_buffers p.2.vertices_buffer_cache })

/-- wgpu CommandBufferExecutor::execute_buffer: acquire the surface
texture (propagating a GraphicalBackendError on failure), fill the render
pass, submit and present (infallible in the wgpu API as used). -/
def wexecute_buffer (s : ExecState) (acquireOk : Bool)
    (objs : List GameObject) :
    Except ThrustlerError (List WDrawCall × ExecState) :=
  if acquireOk then .ok (wfill_render_pass s objs)
  else .error .GraphicalBackendError

end Wgpu

/-- Outcome of an operation that may hit an Option::unwrap panic. -/
inductive PanicOr (α : Type)
  | panicked
  | ok (val : α)
deriving DecidableEq

/-- src/crates/vulkan/src/lib.rs: struct VulkanoToolkit, reduced to the
component the draw path uses; the device, queue, surface, swapchain,
pipeline and prebuilt command buffers are opaque collaborator handles. -/
structure VulkanoToolkit where
  buffer_executor : Vulkan.ExecutorState
deriving DecidableEq

/-- src/crates/vulkan/src/lib.rs: struct VulkanBackend, with
vulkano_toolkit None until init succeeds. -/
structure VulkanBackend where
  screen_size : Size
  vulkano_toolkit : Option VulkanoToolkit
deriving DecidableEq

/-- VulkanBackend::new: toolkit not yet created. -/
def VulkanBackend.new (size : Size) : VulkanBackend := ⟨size, none⟩

/-- VulkanBackend::get_toolkit: `self.vulkano_toolkit.as_ref().unwrap()`,
which panics while the backend is uninitialized. -/
def VulkanBackend.get_toolkit (b : VulkanBackend) : PanicOr VulkanoToolkit :=
  match b.vulkano_toolkit with
  | none => .panicked
  | some tk => .ok tk

/-- VulkanBackend::init: on a toolkit-creation error the backend is left
unchanged and a GraphicalBackendError is returned; on success the toolkit
is installed. -/
def VulkanBackend.init (b : VulkanBackend)
    (created : Except Unit VulkanoToolkit) :
    Except ThrustlerError VulkanBackend :=
  match created with
  | .error _ => .error .GraphicalBackendError
  | .ok tk => .ok { b with vulkano_toolkit := some tk }

/-- The ThrustlerBackend draw operation of VulkanBackend (test_draw in
src/crates/vulkan/src/lib.rs): unwrap the toolkit, then run its buffer
executor over the prebuilt command buffers, discarding the result. -/
def VulkanBackend.test_draw (b : VulkanBackend) : PanicOr Unit :=
  match b.vulkano_toolkit with
  | none => .panicked
  | some _ => .ok ()

/-- src/crates/wgpu/src/lib.rs: struct WgpuBackend (instance handle is an
opaque collaborator), toolkit None until init succeeds. -/
structure WgpuBackend where
  screen_size : Size
  toolkit : Option Wgpu.ExecState
deriving DecidableEq

/-- WgpuBackend::new. -/
def WgpuBackend.new (size : Size) : WgpuBackend := ⟨size, none⟩

/-- The ThrustlerBackend draw operation of WgpuBackend (draw_scene in
src/crates/wgpu/src/lib.rs): `self.toolkit.as_mut().unwrap()` via
get_toolkit, which panics while uninitialized, then the executor runs and
its Result is dropped; the function returns unit. -/
def WgpuBackend.draw_scene (b : WgpuBackend) (_scene : List GameObject) :
    PanicOr Unit :=
  match b.toolkit with
  | none => .panicked
  | some _ => .ok ()

/-- src/crates/engine/src/lib.rs: enum Window. -/
inductive WindowKind
  | Winit
deriving DecidableEq

/-- src/crates/engine/src/lib.rs: enum Backend. -/
inductive BackendKind
  | Vulkan
deriving DecidableEq

/-- src/crates/engine/src/lib.rs: struct EngineSettings.  Its fields are
exactly window_size, window and backend. -/
structure EngineSettings where
  window_size : Size
  window : WindowKind
  backend : BackendKind
deriving DecidableEq

/-- The literal field list of the source struct EngineSettings
(src/crates/engine/src/lib.rs lines 84-88). -/
def EngineSettings.fieldList : List String :=
  ["window_size", "window", "backend"]

/-- src/crates/engine/src/lib.rs: struct EngineSettingsBuilder. -/
structure EngineSettingsBuilder where
  window_size : Option Size
  window : Option WindowKind
  backend : Option BackendKind
deriving DecidableEq

/-- EngineSettingsBuilder::new. -/
def EngineSettingsBuilder.new : EngineSettingsBuilder := ⟨none, none, none⟩

/-- EngineSettingsBuilder::size. -/
def EngineSettingsBuilder.size (b : EngineSettingsBuilder) (s : Size) :
    EngineSettingsBuilder :=
  { b with window_size := some s }

/-- EngineSettingsBuilder::window (named withWindow here because
the structure already has a field called window). -/
def EngineSettingsBuilder.withWindow (b : EngineSettingsBuilder) (w : WindowKind) :
    EngineSettingsBuilder :=
  { b with window := some w }

/-- EngineSettingsBuilder::backend (named withBackend here because
the structure already has a field called backend). -/
def EngineSettingsBuilder.withBackend (b : EngineSettingsBuilder) (k : BackendKind) :
    EngineSettingsBuilder :=
  { b with backend := some k }

/-- EngineSettingsBuilder::build: unwrap_or the defaults. -/
def EngineSettingsBuilder.build (b : EngineSettingsBuilder) : EngineSettings :=
  ⟨b.window_size.getD Size.default, b.window.getD .Winit, b.backend.getD .Vulkan⟩

/-- EngineSettings::default(): builder().size(..).window(Winit)
.backend(Vulkan).build(). -/
def EngineSettings.defaultSettings : EngineSettings :=
  (((EngineSettingsBuilder.new.size Size.default).withWindow .Winit).withBackend
    .Vulkan).build

/-- src/crates/engine/src/lib.rs: struct Engine.  The window is the
constructed WinitWindow (its event source is supplied at start), the
backend the shared VulkanBackend cell, and scenes the ordered scene list
(opaque handles). -/
structure Engine where
  backend : VulkanBackend
  scenes : List Nat
deriving DecidableEq

/-- Engine::new_with_settings (src/crates/engine/src/lib.rs lines 25-60):
match the backend kind (only Vulkan exists) and build the backend plus
its init callback; match the window kind (only Winit exists) and build
the window, turning a window-creation failure into EngineError; on
success the Engine starts with an empty scene list.  The outcome of
WinitWindow::new is a collaborator result passed in as windowCreation.
No field of the settings is validated anywhere on this path. -/
def new_with_settings (s : EngineSettings)
    (windowCreation : Except ThrustlerWindowError Unit) :
    Except ThrustlerError Engine :=
  match s.backend with
  | .Vulkan =>
      let backend := VulkanBackend.new s.window_size
      match s.window with
      | .Winit =>
          match windowCreation with
          | .error _ => .error .EngineError
          | .ok _ => .ok ⟨backend, []⟩

/-- One call the dispatcher closure in Engine::start makes on a scene. -/
inductive EngineCall
  | onStart (scene : Nat)
  | onUpdate (scene : Nat)
  | drawScene (scene : Nat)
  | onDestroy (scene : Nat)
deriving DecidableEq

/-- The body of the dispatcher closure in Engine::start for one scene:
OnStart calls on_start, OnDraw calls on_update then the backend draw,
OnStop calls on_destroy.  The closure receives only the WindowEvent: no
elapsed time, accumulator or frame period appears anywhere in it. -/
def sceneDispatch (event : WindowEvent) (scene : Nat) : List EngineCall :=
  match event with
  | .OnStart => [.onStart scene]
  | .OnDraw => [.onUpdate scene, .drawScene scene]
  | .OnStop => [.onDestroy scene]

/-- The dispatcher closure in Engine::start (lines 62-76): for each scene
in list order, dispatch the event to it. -/
def dispatchEvent (scenes : List Nat) (event : WindowEvent) : List EngineCall :=
  match scenes with
  | [] => []
  | s :: rest => sceneDispatch event s ++ dispatchEvent rest event

/-- The update/draw pairs a call list contains: each drawScene call ends
one on_update-then-draw pair. -/
def updateDrawPairs (calls : List EngineCall) : Nat :=
  (calls.filter (fun c => match c with | .drawScene _ => true | _ => false)).length

/-- What the window event source does during one run: the events it emits
to the dispatcher, in order, and the value run_app returns afterwards
(through the core ThrustlerWindow::start signature). -/
structure WindowBehavior where
  events : List WindowEvent
  result : Except ThrustlerError Unit

/-- Draw calls one event produces: one backend draw per scene on OnDraw
(the dispatcher loops over the scene list), none otherwise. -/
def drawsPerEvent (numScenes : Nat) (e : WindowEvent) : Nat :=
  match e with
  | .OnDraw => numScenes
  | _ => 0

/-- The submission results produced (and immediately dropped) while the
dispatcher processes an event list: the k-th backend draw overall yields
`outcomes k`, which draw_scene discards — its return type is unit — so no
draw outcome influences the loop. -/
def engineRunDraws (numScenes : Nat)
    (outcomes : Nat → Except ThrustlerError Unit) :
    List WindowEvent → Nat → List (Except ThrustlerError Unit)
  | [], _ => []
  | e :: rest, k =>
      (List.range (drawsPerEvent numScenes e)).map (fun i => outcomes (k + i))
        ++ engineRunDraws numScenes outcomes rest (k + drawsPerEvent numScenes e)

/-- Engine::start: hand the dispatcher to window.start and return whatever
the window event source returns; the first component is the trace of
submission results the draws produced and dropped along the way. -/
def engineStart (scenes : List Nat)
    (outcomes : Nat → Except ThrustlerError Unit) (w : WindowBehavior) :
    List (Except ThrustlerError Unit) × Except ThrustlerError Unit :=
  (engineRunDraws scenes.length outcomes w.events 0, w.result)

/-- Total backend draws an event list triggers. -/
def totalDraws (numScenes : Nat) (events : List WindowEvent) : Nat :=
  (events.map (drawsPerEvent numScenes)).sum

/-- Some entry of the vulkan subbuffer cache is keyed u. -/
def Vulkan.HasKey (c : List (Nat × Vulkan.Subbuffer × Bool)) (u : Nat) : Prop :=
  ∃ e ∈ c, e.1 = u

/-- Some entry of the vulkan subbuffer cache is keyed u with used-flag true. -/
def Vulkan.UsedKey (c : List (Nat × Vulkan.Subbuffer × Bool)) (u : Nat) : Prop :=
  ∃ e ∈ c, e.1 = u ∧ e.2.2 = true

/-- Some entry of the wgpu vertex-buffer cache is keyed u. -/
def Wgpu.WHasKey (c : List (Nat × Wgpu.WBuffer × Bool)) (u : Nat) : Prop :=
  ∃ e ∈ c, e.1 = u

/-- Some entry of the wgpu vertex-buffer cache is keyed u with used-flag
true. -/
def Wgpu.WUsedKey (c : List (Nat × Wgpu.WBuffer × Bool)) (u : Nat) : Prop :=
  ∃ e ∈ c, e.1 = u ∧ e.2.2 = true

/-
  Theorems.  Every claim of the specification review is settled by one
  theorem below; the lemmas in between are shared supporting facts about
  the embedded definitions.
-/

theorem Vulkan.mark_not_usedKey (c : List (Nat × Vulkan.Subbuffer × Bool))
    (u : Nat) : ¬ Vulkan.UsedKey (Vulkan.mark_buffers_as_unused c) u := by
  simp [Vulkan.UsedKey, Vulkan.mark_buffers_as_unused]

theorem Vulkan.sweep_hasKey (c : List (Nat × Vulkan.Subbuffer × Bool))
    (u : Nat) :
    Vulkan.HasKey (Vulkan.delete_all_unused_buffers c) u ↔ Vulkan.UsedKey c u := by
  simp only [Vulkan.HasKey, Vulkan.UsedKey, Vulkan.delete_all_unused_buffers,
    List.mem_filter]
  constructor
  · rintro ⟨e, ⟨he, hf⟩, hk⟩
    exact ⟨e, he, hk, hf⟩
  · rintro ⟨e, he, hk, hf⟩
    exact ⟨e, ⟨he, hf⟩, hk⟩

theorem Vulkan.setUsed_usedKey (c : List (Nat × Vulkan.Subbuffer × Bool))
    (id u : Nat) :
    Vulkan.UsedKey (Vulkan.cacheSetUsed c id) u ↔
      (Vulkan.UsedKey c u ∨ (u = id ∧ Vulkan.HasKey c id)) := by
  simp only [Vulkan.UsedKey, Vulkan.HasKey, Vulkan.cacheSetUsed, List.mem_map]
  constructor
  · rintro ⟨e', ⟨a, ha, rfl⟩, hk, hf⟩
    by_cases h : a.1 = id
    · simp only [h, beq_self_eq_true, if_true] at hk hf
      exact Or.inr ⟨hk ▸ h ▸ rfl, a, ha, h⟩
    · have hb : (a.1 == id) = false := by simpa using h
      simp only [hb, Bool.false_eq_true, if_false] at hk hf
      exact Or.inl ⟨a, ha, hk, hf⟩
  · rintro (⟨a, ha, hk, hf⟩ | ⟨rfl, a, ha, hk⟩)
    · by_cases h : a.1 = id
      · exact ⟨(a.1, a.2.1, true), ⟨a, ha, by simp [h]⟩, hk, rfl⟩
      · have hb : (a.1 == id) = false := by simpa using h
        exact ⟨a, ⟨a, ha, by simp [hb]⟩, hk, hf⟩
    · exact ⟨(a.1, a.2.1, true), ⟨a, ha, by simp [hk]⟩, hk, rfl⟩

theorem Vulkan.lookup_none_iff (c : List (Nat × Vulkan.Subbuffer × Bool))
    (u : Nat) : Vulkan.cacheLookup c u = none ↔ ¬ Vulkan.HasKey c u := by
  unfold Vulkan.cacheLookup Vulkan.HasKey
  rw [Option.map_eq_none', List.find?_eq_none]
  constructor
  · rintro h ⟨e, he, hk⟩
    exact h e he (by simp [hk])
  · intro h e he hk
    exact h ⟨e, he, by simpa using hk⟩

theorem Vulkan.lookup_some_hasKey (c : List (Nat × Vulkan.Subbuffer × Bool))
    (u : Nat) (b : Vulkan.Subbuffer)
    (h : Vulkan.cacheLookup c u = some b) : Vulkan.HasKey c u := by
  unfold Vulkan.cacheLookup at h
  rcases Option.map_eq_some'.mp h with ⟨e, hfind, _⟩
  exact ⟨e, List.mem_of_find?_eq_some hfind, by
    simpa using List.find?_some hfind⟩

theorem Vulkan.lookup_map_keep
    (f : (Nat × Vulkan.Subbuffer × Bool) → (Nat × Vulkan.Subbuffer × Bool))
    (hf : ∀ e, (f e).1 = e.1 ∧ (f e).2.1 = e.2.1)
    (c : List (Nat × Vulkan.Subbuffer × Bool)) (u : Nat) :
    Vulkan.cacheLookup (c.map f) u = Vulkan.cacheLookup c u := by
  induction c with
  | nil => rfl
  | cons e rest ih =>
      have h1 := (hf e).1
      have h2 := (hf e).2
      unfold Vulkan.cacheLookup at *
      rw [List.map_cons]
      simp only [List.find?_cons, h1]
      cases hbu : (e.1 == u) with
      | true => simp [h2]
      | false => simpa using ih

theorem Vulkan.setUsed_lookup (c : List (Nat × Vulkan.Subbuffer × Bool))
    (id u : Nat) :
    Vulkan.cacheLookup (Vulkan.cacheSetUsed c id) u = Vulkan.cacheLookup c u := by
  refine Vulkan.lookup_map_keep _ ?_ c u
  intro e
  constructor
  · by_cases h : (e.1 == id) = true <;> simp [h]
  · by_cases h : (e.1 == id) = true <;> simp [h]

theorem Vulkan.lookup_append_self (c : List (Nat × Vulkan.Subbuffer × Bool))
    (u : Nat) (b : Vulkan.Subbuffer)
    (h : Vulkan.cacheLookup c u = none) :
    Vulkan.cacheLookup (c ++ [(u, b, true)]) u = some b := by
  induction c with
  | nil => simp [Vulkan.cacheLookup]
  | cons e rest ih =>
      simp only [Vulkan.cacheLookup, List.cons_append, List.find?_cons] at *
      by_cases hu : e.1 = u
      · simp [hu] at h
      · have hb : (e.1 == u) = false := by simpa using hu
        simp only [hb, Bool.false_eq_true, if_false] at *
        exact ih h

theorem Vulkan.setUsed_marks (c : List (Nat × Vulkan.Subbuffer × Bool))
    (u : Nat) (b : Vulkan.Subbuffer)
    (h : Vulkan.cacheLookup c u = some b) :
    Vulkan.UsedKey (Vulkan.cacheSetUsed c u) u :=
  (Vulkan.setUsed_usedKey c u u).mpr
    (Or.inr ⟨rfl, Vulkan.lookup_some_hasKey c u b h⟩)

theorem Vulkan.get_subbuffer_fence (s : Vulkan.ExecutorState) (g : GameObject) :
    (Vulkan.get_subbuffer_for_game_object s g).2.last_frame_fence
      = s.last_frame_fence := by
  unfold Vulkan.get_subbuffer_for_game_object
  cases Vulkan.cacheLookup s.subbuffer_cache g.id <;> rfl

theorem Vulkan.recordObjects_fence (objs : List GameObject) :
    ∀ s : Vulkan.ExecutorState,
      (Vulkan.recordObjects s objs).2.last_frame_fence = s.last_frame_fence := by
  induction objs with
  | nil => intro s; rfl
  | cons g rest ih =>
      intro s
      show (Vulkan.recordObjects
        (Vulkan.get_subbuffer_for_game_object s g).2 rest).2.last_frame_fence = _
      rw [ih, Vulkan.get_subbuffer_fence]

theorem Vulkan.fill_fence (s : Vulkan.ExecutorState) (objs : List GameObject) :
    (Vulkan.fill_render_pass s objs).2.last_frame_fence = s.last_frame_fence := by
  show (Vulkan.recordObjects _ objs).2.last_frame_fence = _
  rw [Vulkan.recordObjects_fence]

theorem Vulkan.usedKey_append (c : List (Nat × Vulkan.Subbuffer × Bool))
    (k u : Nat) (b : Vulkan.Subbuffer) :
    Vulkan.UsedKey (c ++ [(k, b, true)]) u ↔ (Vulkan.UsedKey c u ∨ u = k) := by
  simp only [Vulkan.UsedKey, List.mem_append, List.mem_singleton]
  constructor
  · rintro ⟨e, he | rfl, hk, hf⟩
    · exact Or.inl ⟨e, he, hk, hf⟩
    · exact Or.inr hk.symm
  · rintro (⟨e, he, hk, hf⟩ | rfl)
    · exact ⟨e, Or.inl he, hk, hf⟩
    · exact ⟨(u, b, true), Or.inr rfl, rfl, rfl⟩

theorem Vulkan.recordObjects_usedKey (objs : List GameObject) :
    ∀ (s : Vulkan.ExecutorState) (u : Nat),
      Vulkan.UsedKey (Vulkan.recordObjects s objs).2.subbuffer_cache u ↔
        (Vulkan.UsedKey s.subbuffer_cache u ∨ ∃ g ∈ objs, g.id = u) := by
  induction objs with
  | nil => intro s u; simp [Vulkan.recordObjects]
  | cons g rest ih =>
      intro s u
      show Vulkan.UsedKey (Vulkan.recordObjects
        (Vulkan.get_subbuffer_for_game_object s g).2 rest).2.subbuffer_cache u ↔ _
      rw [ih]
      unfold Vulkan.get_subbuffer_for_game_object
      cases h : Vulkan.cacheLookup s.subbuffer_cache g.id with
      | some b =>
          have hk := Vulkan.lookup_some_hasKey s.subbuffer_cache g.id b h
          rw [Vulkan.setUsed_usedKey]
          simp only [List.mem_cons]
          constructor
          · rintro ((hu | ⟨rfl, _⟩) | ⟨g', hg', hgu⟩)
            · exact Or.inl hu
            · exact Or.inr ⟨g, Or.inl rfl, rfl⟩
            · exact Or.inr ⟨g', Or.inr hg', hgu⟩
          · rintro (hu | ⟨g', rfl | hg', hgu⟩)
            · exact Or.inl (Or.inl hu)
            · exact Or.inl (Or.inr ⟨hgu.symm, hk⟩)
            · exact Or.inr ⟨g', hg', hgu⟩
      | none =>
          rw [Vulkan.usedKey_append]
          simp only [List.mem_cons]
          constructor
          · rintro ((hu | rfl) | ⟨g', hg', hgu⟩)
            · exact Or.inl hu
            · exact Or.inr ⟨g, Or.inl rfl, rfl⟩
            · exact Or.inr ⟨g', Or.inr hg', hgu⟩
          · rintro (hu | ⟨g', rfl | hg', hgu⟩)
            · exact Or.inl (Or.inl hu)
            · exact Or.inl (Or.inr hgu.symm)
            · exact Or.inr ⟨g', hg', hgu⟩

/-- Claim C1, counterexample.  The claim says a single Draw event with
elapsed delta 0.35 s at frames_per_second 10 triggers exactly 3
update/draw pairs by draining a banked-time accumulator.  The dispatcher
closure of Engine::start receives only the WindowEvent — no elapsed time,
no accumulator, no frame period exist anywhere in the Engine — so one
Draw event with one scene performs exactly 1 update/draw pair, not 3,
whatever wall-clock time elapsed before it. -/
theorem engine_draw_dispatch_refutes_accumulator :
    updateDrawPairs (dispatchEvent [0] WindowEvent.OnDraw) = 1 ∧
    updateDrawPairs (dispatchEvent [0] WindowEvent.OnDraw) ≠ 3 := by
  constructor <;> decide

/-- Claim C1, amended.  Each Draw event performs, for each scene in list
order, exactly one on_update followed by one backend draw, independent of
elapsed wall-clock time: the Engine keeps no banked-time accumulator, so
the number of update/draw pairs per Draw event always equals the number
of scenes. -/
theorem engine_draw_dispatch_single_pair (scenes : List Nat) :
    dispatchEvent scenes WindowEvent.OnDraw
      = scenes.flatMap (fun s => [EngineCall.onUpdate s, EngineCall.drawScene s]) ∧
    updateDrawPairs (dispatchEvent scenes WindowEvent.OnDraw) = scenes.length := by
  constructor
  · induction scenes with
    | nil => rfl
    | cons s rest ih => simp [dispatchEvent, sceneDispatch, ih]
  · induction scenes with
    | nil => rfl
    | cons s rest ih =>
        simp only [dispatchEvent, sceneDispatch, updateDrawPairs,
          List.filter_append, List.length_append] at *
        simp [List.filter, ih]
        omega

/-- Claim C9, counterexample.  The claim says a frames_per_second of 0 is
rejected with a ConfigurationError at Engine construction.  EngineSettings
has no frames_per_second field at all — its fields are exactly
window_size, window and backend — and new_with_settings validates
nothing: with the default settings it succeeds whenever window creation
succeeds and any window-creation failure becomes the EngineError variant
(the error enum has no ConfigurationError). -/
theorem no_frames_per_second_setting :
    "frames_per_second" ∉ EngineSettings.fieldList ∧
    new_with_settings EngineSettings.defaultSettings (.ok ())
      = .ok ⟨VulkanBackend.new Size.default, []⟩ ∧
    new_with_settings EngineSettings.defaultSettings
        (.error .WindowLoopError) = .error .EngineError := by
  refine ⟨by decide, rfl, rfl⟩

/-- Claim C9, amended.  There is no frames_per_second option:
EngineSettings carries only window_size, window and backend, Engine
construction performs no configuration validation (it returns Ok for
every settings value when window creation succeeds, and maps any
window-creation failure to EngineError), and the error type has no
ConfigurationError variant. -/
theorem engine_construction_no_fps_validation (s : EngineSettings)
    (e : ThrustlerWindowError) (err : ThrustlerError) :
    new_with_settings s (.ok ()) = .ok ⟨VulkanBackend.new s.window_size, []⟩ ∧
    new_with_settings s (.error e) = .error .EngineError ∧
    (err = .WindowError ∨ err = .GraphicalBackendError ∨ err = .EngineError) := by
  obtain ⟨size, w, b⟩ := s
  cases w
  cases b
  refine ⟨rfl, rfl, ?_⟩
  cases err
  · exact Or.inl rfl
  · exact Or.inr (Or.inl rfl)
  · exact Or.inr (Or.inr rfl)

theorem engineRunDraws_length (n : Nat)
    (outcomes : Nat → Except ThrustlerError Unit) (events : List WindowEvent) :
    ∀ k, (engineRunDraws n outcomes events k).length = totalDraws n events := by
  induction events with
  | nil => intro k; rfl
  | cons e rest ih =>
      intro k
      simp only [engineRunDraws, totalDraws, List.map_cons, List.sum_cons,
        List.length_append, List.length_map, List.length_range]
      rw [ih]
      rfl

/-- Claim C7, counterexample.  The claim says a submission failure is
propagated to the caller of start and the loop stops.  In the source,
draw_scene drops the Result of execute_buffer and returns unit, so with
one scene and two Draw events where the first submission fails, the
second draw still runs and start returns the Ok of the window loop, not
the submission error. -/
theorem submission_error_not_propagated :
    engineStart [0]
        (fun k => if k = 0 then .error .GraphicalBackendError else .ok ())
        ⟨[.OnDraw, .OnDraw], .ok ()⟩
      = ([.error .GraphicalBackendError, .ok ()], .ok ()) ∧
    (engineStart [0]
        (fun k => if k = 0 then .error .GraphicalBackendError else .ok ())
        ⟨[.OnDraw, .OnDraw], .ok ()⟩).2
      ≠ .error ThrustlerError.GraphicalBackendError := by
  refine ⟨rfl, ?_⟩
  intro h
  exact Except.noConfusion h

/-- Claim C7, amended.  Submission and presentation failures are never
propagated: draw_scene discards the frame submitter result and returns
unit, the event loop keeps dispatching every subsequent event (one draw
per scene per Draw event, whatever the earlier outcomes were), and
start() returns exactly the window event-source result. -/
theorem submission_errors_discarded_loop_continues (scenes : List Nat)
    (outcomes : Nat → Except ThrustlerError Unit) (events : List WindowEvent)
    (wres : Except ThrustlerError Unit) :
    (engineStart scenes outcomes ⟨events, wres⟩).2 = wres ∧
    (engineStart scenes outcomes ⟨events, wres⟩).1.length
      = totalDraws scenes.length events :=
  ⟨rfl, engineRunDraws_length scenes.length outcomes events 0⟩

/-- Claim C10 (code bug).  The source assumes last_frame_fence always
holds Some at the start of execute_buffer, but the take() performed
before then_execute leaves None behind on every subsequent failure path:
a call whose queue execution fails returns Fail with the slot empty, and
the next call that sees a suboptimal acquire panics on the unwrap; an
out-of-date present even panics within the very call that took the
fence. -/
theorem fence_unwrap_panics_after_fail :
    Vulkan.execute_buffer Vulkan.ExecutorState.new
        ⟨some (0, false), true, false, .ok⟩ [] 0
      = .ret .Fail ⟨[], 0, none⟩ [] none none ∧
    Vulkan.execute_buffer ⟨[], 0, none⟩
        ⟨some (0, true), true, true, .ok⟩ [] 1
      = .panicked ∧
    Vulkan.execute_buffer Vulkan.ExecutorState.new
        ⟨some (0, false), true, true, .outOfDate⟩ [] 0
      = .panicked := by
  refine ⟨rfl, rfl, rfl⟩

/-- Claim C2, counterexample.  The claim says a successful submission
leaves the outstanding-fence slot holding a token that represents this
submission.  On the success path the source discards the fence future
the flush produced (here the fence of submission 7) and refills the slot
with a fresh sync::now token instead, which is a different token. -/
theorem submit_fence_not_this_submission :
    Vulkan.execute_buffer Vulkan.ExecutorState.new
        ⟨some (0, false), true, true, .ok⟩ [] 7
      = .ret .Done ⟨[], 0, some .now⟩ [] (some ⟨.now, true⟩)
          (some (.fenceOf 7)) ∧
    (some Vulkan.GpuToken.now ≠ some (Vulkan.GpuToken.fenceOf 7)) := by
  refine ⟨rfl, by decide⟩

theorem Wgpu.wmark_not_usedKey (c : List (Nat × Wgpu.WBuffer × Bool))
    (u : Nat) : ¬ Wgpu.WUsedKey (Wgpu.wmark_buffers_as_unused c) u := by
  simp [Wgpu.WUsedKey, Wgpu.wmark_buffers_as_unused]

theorem Wgpu.wsweep_hasKey (c : List (Nat × Wgpu.WBuffer × Bool))
    (u : Nat) :
    Wgpu.WHasKey (Wgpu.wdelete_all_unused_buffers c) u ↔ Wgpu.WUsedKey c u := by
  simp only [Wgpu.WHasKey, Wgpu.WUsedKey, Wgpu.wdelete_all_unused_buffers,
    List.mem_filter]
  constructor
  · rintro ⟨e, ⟨he, hf⟩, hk⟩
    exact ⟨e, he, hk, hf⟩
  · rintro ⟨e, he, hk, hf⟩
    exact ⟨e, ⟨he, hf⟩, hk⟩

theorem Wgpu.wsetUsed_usedKey (c : List (Nat × Wgpu.WBuffer × Bool))
    (id u : Nat) :
    Wgpu.WUsedKey (Wgpu.wcacheSetUsed c id) u ↔
      (Wgpu.WUsedKey c u ∨ (u = id ∧ Wgpu.WHasKey c id)) := by
  simp only [Wgpu.WUsedKey, Wgpu.WHasKey, Wgpu.wcacheSetUsed, List.mem_map]
  constructor
  · rintro ⟨e', ⟨a, ha, rfl⟩, hk, hf⟩
    by_cases h : a.1 = id
    · simp only [h, beq_self_eq_true, if_true] at hk hf
      exact Or.inr ⟨hk ▸ h ▸ rfl, a, ha, h⟩
    · have hb : (a.1 == id) = false := by simpa using h
      simp only [hb, Bool.false_eq_true, if_false] at hk hf
      exact Or.inl ⟨a, ha, hk, hf⟩
  · rintro (⟨a, ha, hk, hf⟩ | ⟨rfl, a, ha, hk⟩)
    · by_cases h : a.1 = id
      · exact ⟨(a.1, a.2.1, true), ⟨a, ha, by simp [h]⟩, hk, rfl⟩
      · have hb : (a.1 == id) = false := by simpa using h
        exact ⟨a, ⟨a, ha, by simp [hb]⟩, hk, hf⟩
    · exact ⟨(a.1, a.2.1, true), ⟨a, ha, by simp [hk]⟩, hk, rfl⟩

theorem Wgpu.wlookup_some_hasKey (c : List (Nat × Wgpu.WBuffer × Bool))
    (u : Nat) (b : Wgpu.WBuffer)
    (h : Wgpu.wcacheLookup c u = some b) : Wgpu.WHasKey c u := by
  unfold Wgpu.wcacheLookup at h
  rcases Option.map_eq_some'.mp h with ⟨e, hfind, _⟩
  exact ⟨e, List.mem_of_find?_eq_some hfind, by
    simpa using List.find?_some hfind⟩

theorem Wgpu.wlookup_map_keep
    (f : (Nat × Wgpu.WBuffer × Bool) → (Nat × Wgpu.WBuffer × Bool))
    (hf : ∀ e, (f e).1 = e.1 ∧ (f e).2.1 = e.2.1)
    (c : List (Nat × Wgpu.WBuffer × Bool)) (u : Nat) :
    Wgpu.wcacheLookup (c.map f) u = Wgpu.wcacheLookup c u := by
  induction c with
  | nil => rfl
  | cons e rest ih =>
      have h1 := (hf e).1
      have h2 := (hf e).2
      unfold Wgpu.wcacheLookup at *
      rw [List.map_cons]
      simp only [List.find?_cons, h1]
      cases hbu : (e.1 == u) with
      | true => simp [h2]
      | false => simpa using ih

theorem Wgpu.wsetUsed_lookup (c : List (Nat × Wgpu.WBuffer × Bool))
    (id u : Nat) :
    Wgpu.wcacheLookup (Wgpu.wcacheSetUsed c id) u = Wgpu.wcacheLookup c u := by
  refine Wgpu.wlookup_map_keep _ ?_ c u
  intro e
  constructor
  · by_cases h : (e.1 == id) = true <;> simp [h]
  · by_cases h : (e.1 == id) = true <;> simp [h]

theorem Wgpu.wlookup_append_self (c : List (Nat × Wgpu.WBuffer × Bool))
    (u : Nat) (b : Wgpu.WBuffer)
    (h : Wgpu.wcacheLookup c u = none) :
    Wgpu.wcacheLookup (c ++ [(u, b, true)]) u = some b := by
  induction c with
  | nil => simp [Wgpu.wcacheLookup]
  | cons e rest ih =>
      simp only [Wgpu.wcacheLookup, List.cons_append, List.find?_cons] at *
      by_cases hu : e.1 = u
      · simp [hu] at h
      · have hb : (e.1 == u) = false := by simpa using hu
        simp only [hb, Bool.false_eq_true, if_false] at *
        exact ih h

theorem Wgpu.wsetUsed_marks (c : List (Nat × Wgpu.WBuffer × Bool))
    (u : Nat) (b : Wgpu.WBuffer)
    (h : Wgpu.wcacheLookup c u = some b) :
    Wgpu.WUsedKey (Wgpu.wcacheSetUsed c u) u :=
  (Wgpu.wsetUsed_usedKey c u u).mpr
    (Or.inr ⟨rfl, Wgpu.wlookup_some_hasKey c u b h⟩)

theorem Wgpu.wusedKey_append (c : List (Nat × Wgpu.WBuffer × Bool))
    (k u : Nat) (b : Wgpu.WBuffer) :
    Wgpu.WUsedKey (c ++ [(k, b, true)]) u ↔ (Wgpu.WUsedKey c u ∨ u = k) := by
  simp only [Wgpu.WUsedKey, List.mem_append, List.mem_singleton]
  constructor
  · rintro ⟨e, he | rfl, hk, hf⟩
    · exact Or.inl ⟨e, he, hk, hf⟩
    · exact Or.inr hk.symm
  · rintro (⟨e, he, hk, hf⟩ | rfl)
    · exact ⟨e, Or.inl he, hk, hf⟩
    · exact ⟨(u, b, true), Or.inr rfl, rfl, rfl⟩

theorem Wgpu.wrecordObjects_usedKey (objs : List GameObject) :
    ∀ (t : Wgpu.ExecState) (u : Nat),
      Wgpu.WUsedKey (Wgpu.wrecordObjects t objs).2.vertices_buffer_cache u ↔
        (Wgpu.WUsedKey t.vertices_buffer_cache u ∨ ∃ g ∈ objs, g.id = u) := by
  induction objs with
  | nil => intro t u; simp [Wgpu.wrecordObjects]
  | cons g rest ih =>
      intro t u
      show Wgpu.WUsedKey (Wgpu.wrecordObjects
        (Wgpu.get_buffer_slice_for_game_object t g).2 rest).2.vertices_buffer_cache u ↔ _
      rw [ih]
      unfold Wgpu.get_buffer_slice_for_game_object
      cases h : Wgpu.wcacheLookup t.vertices_buffer_cache g.id with
      | some b =>
          have hk := Wgpu.wlookup_some_hasKey t.vertices_buffer_cache g.id b h
          rw [Wgpu.wsetUsed_usedKey]
          simp only [List.mem_cons]
          constructor
          · rintro ((hu | ⟨rfl, _⟩) | ⟨g', hg', hgu⟩)
            · exact Or.inl hu
            · exact Or.inr ⟨g, Or.inl rfl, rfl⟩
            · exact Or.inr ⟨g', Or.inr hg', hgu⟩
          · rintro (hu | ⟨g', rfl | hg', hgu⟩)
            · exact Or.inl (Or.inl hu)
            · exact Or.inl (Or.inr ⟨hgu.symm, hk⟩)
            · exact Or.inr ⟨g', hg', hgu⟩
      | none =>
          rw [Wgpu.wusedKey_append]
          simp only [List.mem_cons]
          constructor
          · rintro ((hu | rfl) | ⟨g', hg', hgu⟩)
            · exact Or.inl hu
            · exact Or.inr ⟨g, Or.inl rfl, rfl⟩
            · exact Or.inr ⟨g', Or.inr hg', hgu⟩
          · rintro (hu | ⟨g', rfl | hg', hgu⟩)
            · exact Or.inl (Or.inl hu)
            · exact Or.inl (Or.inr hgu.symm)
            · exact Or.inr ⟨g', hg', hgu⟩

/-- Claim C3.  In both backends, fill_render_pass clears every used-flag
before recording and sweeps every still-unused entry afterwards, so after
a frame the cache holds exactly the identities of the object
list of that frame: an identity present in frame 1 but absent from frame 2 is gone by
the end of frame 2, and an object whose identity is not cached triggers a
fresh upload (a new buffer tagged with the current upload counter, which
is bumped). -/
theorem cache_mark_sweep_eviction (s : Vulkan.ExecutorState)
    (t : Wgpu.ExecState) (objs : List GameObject) (u : Nat) (g : GameObject) :
    (Vulkan.HasKey (Vulkan.fill_render_pass s objs).2.subbuffer_cache u ↔
      ∃ o ∈ objs, o.id = u) ∧
    (Wgpu.WHasKey (Wgpu.wfill_render_pass t objs).2.vertices_buffer_cache u ↔
      ∃ o ∈ objs, o.id = u) ∧
    (Vulkan.cacheLookup s.subbuffer_cache g.id = none →
      (Vulkan.get_subbuffer_for_game_object s g).1
          = Vulkan.create_vertex_buffer s.nextUpload g ∧
      (Vulkan.get_subbuffer_for_game_object s g).2.nextUpload
          = s.nextUpload + 1) ∧
    (Wgpu.wcacheLookup t.vertices_buffer_cache g.id = none →
      (Wgpu.get_buffer_slice_for_game_object t g).1
          = Wgpu.create_vertices_buffer t.nextUpload g ∧
      (Wgpu.get_buffer_slice_for_game_object t g).2.nextUpload
          = t.nextUpload + 1) := by
  refine ⟨?_, ?_, ?_, ?_⟩
  · simp only [Vulkan.fill_render_pass]
    rw [Vulkan.sweep_hasKey, Vulkan.recordObjects_usedKey]
    constructor
    · rintro (hused | hobjs)
      · exact absurd hused (Vulkan.mark_not_usedKey s.subbuffer_cache u)
      · exact hobjs
    · intro hobjs
      exact Or.inr hobjs
  · simp only [Wgpu.wfill_render_pass]
    rw [Wgpu.wsweep_hasKey, Wgpu.wrecordObjects_usedKey]
    constructor
    · rintro (hused | hobjs)
      · exact absurd hused (Wgpu.wmark_not_usedKey t.vertices_buffer_cache u)
      · exact hobjs
    · intro hobjs
      exact Or.inr hobjs
  · intro h
    simp [Vulkan.get_subbuffer_for_game_object, h]
  · intro h
    simp [Wgpu.get_buffer_slice_for_game_object, h]

/-- Claim C3, witness at a concrete two-frame scenario: frame 2 records
only identity 2 over a cache holding identity 1, and identity 1 is gone
afterwards; looking up the fresh identity 3 uploads a new buffer. -/
theorem cache_mark_sweep_eviction_witness :
    (Vulkan.HasKey (Vulkan.fill_render_pass ⟨[(1, ⟨0, []⟩, true)], 1, some .now⟩
        [⟨2, []⟩]).2.subbuffer_cache 1 ↔
      ∃ o ∈ [(⟨2, []⟩ : GameObject)], o.id = 1) ∧
    (Wgpu.WHasKey (Wgpu.wfill_render_pass ⟨[(1, ⟨0, []⟩, true)], 1⟩
        [⟨2, []⟩]).2.vertices_buffer_cache 1 ↔
      ∃ o ∈ [(⟨2, []⟩ : GameObject)], o.id = 1) ∧
    ((Vulkan.get_subbuffer_for_game_object ⟨[(1, ⟨0, []⟩, true)], 1, some .now⟩
        ⟨3, []⟩).1 = Vulkan.create_vertex_buffer 1 ⟨3, []⟩ ∧
      (Vulkan.get_subbuffer_for_game_object ⟨[(1, ⟨0, []⟩, true)], 1, some .now⟩
        ⟨3, []⟩).2.nextUpload = 1 + 1) ∧
    ((Wgpu.get_buffer_slice_for_game_object ⟨[(1, ⟨0, []⟩, true)], 1⟩
        ⟨3, []⟩).1 = Wgpu.create_vertices_buffer 1 ⟨3, []⟩ ∧
      (Wgpu.get_buffer_slice_for_game_object ⟨[(1, ⟨0, []⟩, true)], 1⟩
        ⟨3, []⟩).2.nextUpload = 1 + 1) :=
  ⟨(cache_mark_sweep_eviction ⟨[(1, ⟨0, []⟩, true)], 1, some .now⟩
      ⟨[(1, ⟨0, []⟩, true)], 1⟩ [⟨2, []⟩] 1 ⟨3, []⟩).1,
   (cache_mark_sweep_eviction ⟨[(1, ⟨0, []⟩, true)], 1, some .now⟩
      ⟨[(1, ⟨0, []⟩, true)], 1⟩ [⟨2, []⟩] 1 ⟨3, []⟩).2.1,
   (cache_mark_sweep_eviction ⟨[(1, ⟨0, []⟩, true)], 1, some .now⟩
      ⟨[(1, ⟨0, []⟩, true)], 1⟩ [⟨2, []⟩] 1 ⟨3, []⟩).2.2.1 rfl,
   (cache_mark_sweep_eviction ⟨[(1, ⟨0, []⟩, true)], 1, some .now⟩
      ⟨[(1, ⟨0, []⟩, true)], 1⟩ [⟨2, []⟩] 1 ⟨3, []⟩).2.2.2 rfl⟩

/-- Claim C4.  Two get-or-create lookups with the same identity, in either
backend cache, return the identical buffer, the second lookup re-uploads
nothing (the upload counter does not move) even when the second object
carries different vertex content, the entry ends up marked used, and when
the identity was not cached the first lookup performed exactly one
upload. -/
theorem cache_same_identity_single_upload (s : Vulkan.ExecutorState)
    (t : Wgpu.ExecState) (g g' : GameObject) (hid : g'.id = g.id) :
    ((Vulkan.get_subbuffer_for_game_object
        (Vulkan.get_subbuffer_for_game_object s g).2 g').1
      = (Vulkan.get_subbuffer_for_game_object s g).1) ∧
    ((Vulkan.get_subbuffer_for_game_object
        (Vulkan.get_subbuffer_for_game_object s g).2 g').2.nextUpload
      = (Vulkan.get_subbuffer_for_game_object s g).2.nextUpload) ∧
    Vulkan.UsedKey (Vulkan.get_subbuffer_for_game_object
        (Vulkan.get_subbuffer_for_game_object s g).2 g').2.subbuffer_cache
      g.id ∧
    (Vulkan.cacheLookup s.subbuffer_cache g.id = none →
      (Vulkan.get_subbuffer_for_game_object s g).2.nextUpload
        = s.nextUpload + 1) ∧
    ((Wgpu.get_buffer_slice_for_game_object
        (Wgpu.get_buffer_slice_for_game_object t g).2 g').1
      = (Wgpu.get_buffer_slice_for_game_object t g).1) ∧
    ((Wgpu.get_buffer_slice_for_game_object
        (Wgpu.get_buffer_slice_for_game_object t g).2 g').2.nextUpload
      = (Wgpu.get_buffer_slice_for_game_object t g).2.nextUpload) ∧
    Wgpu.WUsedKey (Wgpu.get_buffer_slice_for_game_object
        (Wgpu.get_buffer_slice_for_game_object t g).2 g').2.vertices_buffer_cache
      g.id ∧
    (Wgpu.wcacheLookup t.vertices_buffer_cache g.id = none →
      (Wgpu.get_buffer_slice_for_game_object t g).2.nextUpload
        = t.nextUpload + 1) := by
  have vkey : Vulkan.cacheLookup
      (Vulkan.get_subbuffer_for_game_object s g).2.subbuffer_cache g.id
      = some (Vulkan.get_subbuffer_for_game_object s g).1 := by
    unfold Vulkan.get_subbuffer_for_game_object
    cases h : Vulkan.cacheLookup s.subbuffer_cache g.id with
    | some b =>
        show Vulkan.cacheLookup (Vulkan.cacheSetUsed _ g.id) g.id = some b
        rw [Vulkan.setUsed_lookup]
        exact h
    | none => exact Vulkan.lookup_append_self _ _ _ h
  have wkey : Wgpu.wcacheLookup
      (Wgpu.get_buffer_slice_for_game_object t g).2.vertices_buffer_cache g.id
      = some (Wgpu.get_buffer_slice_for_game_object t g).1 := by
    unfold Wgpu.get_buffer_slice_for_game_object
    cases h : Wgpu.wcacheLookup t.vertices_buffer_cache g.id with
    | some b =>
        show Wgpu.wcacheLookup (Wgpu.wcacheSetUsed _ g.id) g.id = some b
        rw [Wgpu.wsetUsed_lookup]
        exact h
    | none => exact Wgpu.wlookup_append_self _ _ _ h
  have vsnd : Vulkan.get_subbuffer_for_game_object
      (Vulkan.get_subbuffer_for_game_object s g).2 g'
      = ((Vulkan.get_subbuffer_for_game_object s g).1,
        { (Vulkan.get_subbuffer_for_game_object s g).2 with
            subbuffer_cache := Vulkan.cacheSetUsed
              (Vulkan.get_subbuffer_for_game_object s g).2.subbuffer_cache
              g.id }) := by
    generalize Vulkan.get_subbuffer_for_game_object s g = q at vkey ⊢
    obtain ⟨b1, s1⟩ := q
    unfold Vulkan.get_subbuffer_for_game_object
    rw [hid, vkey]
  have wsnd : Wgpu.get_buffer_slice_for_game_object
      (Wgpu.get_buffer_slice_for_game_object t g).2 g'
      = ((Wgpu.get_buffer_slice_for_game_object t g).1,
        { (Wgpu.get_buffer_slice_for_game_object t g).2 with
            vertices_buffer_cache := Wgpu.wcacheSetUsed
              (Wgpu.get_buffer_slice_for_game_object t g).2.vertices_buffer_cache
              g.id }) := by
    generalize Wgpu.get_buffer_slice_for_game_object t g = q at wkey ⊢
    obtain ⟨b1, t1⟩ := q
    unfold Wgpu.get_buffer_slice_for_game_object
    rw [hid, wkey]
  refine ⟨by rw [vsnd], by rw [vsnd], ?_, ?_, by rw [wsnd], by rw [wsnd],
    ?_, ?_⟩
  · rw [vsnd]
    exact Vulkan.setUsed_marks _ _ _ vkey
  · intro h
    simp [Vulkan.get_subbuffer_for_game_object, h]
  · rw [wsnd]
    exact Wgpu.wsetUsed_marks _ _ _ wkey
  · intro h
    simp [Wgpu.get_buffer_slice_for_game_object, h]

/-- Claim C4, witness: identity 5 looked up twice from an empty cache with
different vertex content on the second object. -/
theorem cache_same_identity_single_upload_witness :
    ((Vulkan.get_subbuffer_for_game_object
        (Vulkan.get_subbuffer_for_game_object Vulkan.ExecutorState.new
          ⟨5, [⟨(0, 0)⟩]⟩).2 ⟨5, []⟩).1
      = (Vulkan.get_subbuffer_for_game_object Vulkan.ExecutorState.new
          ⟨5, [⟨(0, 0)⟩]⟩).1) ∧
    ((Vulkan.get_subbuffer_for_game_object Vulkan.ExecutorState.new
        ⟨5, [⟨(0, 0)⟩]⟩).2.nextUpload = 0 + 1) ∧
    ((Wgpu.get_buffer_slice_for_game_object
        (Wgpu.get_buffer_slice_for_game_object Wgpu.ExecState.new
          ⟨5, [⟨(0, 0)⟩]⟩).2 ⟨5, []⟩).1
      = (Wgpu.get_buffer_slice_for_game_object Wgpu.ExecState.new
          ⟨5, [⟨(0, 0)⟩]⟩).1) ∧
    ((Wgpu.get_buffer_slice_for_game_object Wgpu.ExecState.new
        ⟨5, [⟨(0, 0)⟩]⟩).2.nextUpload = 0 + 1) :=
  ⟨(cache_same_identity_single_upload Vulkan.ExecutorState.new
      Wgpu.ExecState.new ⟨5, [⟨(0, 0)⟩]⟩ ⟨5, []⟩ rfl).1,
   (cache_same_identity_single_upload Vulkan.ExecutorState.new
      Wgpu.ExecState.new ⟨5, [⟨(0, 0)⟩]⟩ ⟨5, []⟩ rfl).2.2.2.1 rfl,
   (cache_same_identity_single_upload Vulkan.ExecutorState.new
      Wgpu.ExecState.new ⟨5, [⟨(0, 0)⟩]⟩ ⟨5, []⟩ rfl).2.2.2.2.1,
   (cache_same_identity_single_upload Vulkan.ExecutorState.new
      Wgpu.ExecState.new ⟨5, [⟨(0, 0)⟩]⟩ ⟨5, []⟩ rfl).2.2.2.2.2.2.2 rfl⟩

theorem Vulkan.recordObjects_draws (objs : List GameObject) :
    ∀ (s : Vulkan.ExecutorState) (dc : Vulkan.DrawCall),
      dc ∈ (Vulkan.recordObjects s objs).1 → dc.vertexCount = dc.buffer.len := by
  induction objs with
  | nil =>
      intro s dc h
      simp [Vulkan.recordObjects] at h
  | cons g rest ih =>
      intro s dc h
      rcases List.mem_cons.mp (by simpa [Vulkan.recordObjects] using h) with
        rfl | hm
      · rfl
      · exact ih _ _ hm

theorem Wgpu.wrecordObjects_draws (objs : List GameObject) :
    ∀ (t : Wgpu.ExecState) (dc : Wgpu.WDrawCall),
      dc ∈ (Wgpu.wrecordObjects t objs).1 →
        dc.firstVertex = 0 ∧ dc.vertexCount = 3 := by
  induction objs with
  | nil =>
      intro t dc h
      simp [Wgpu.wrecordObjects] at h
  | cons g rest ih =>
      intro t dc h
      rcases List.mem_cons.mp (by simpa [Wgpu.wrecordObjects] using h) with
        rfl | hm
      · exact ⟨rfl, rfl⟩
      · exact ih _ _ hm

/-- Claim C5, counterexample.  The claim says every draw call uses the
vertex count of the bound buffer, whatever the length of the vertex
list of the object.  The wgpu Record step draws the literal vertex range 0..3: for a
six-vertex object it binds a six-element buffer but draws only 3
vertices. -/
theorem wgpu_draw_count_mismatch :
    (Wgpu.wfill_render_pass Wgpu.ExecState.new
        [⟨9, [⟨(0, 0)⟩, ⟨(1, 0)⟩, ⟨(0, 1)⟩, ⟨(2, 0)⟩, ⟨(0, 2)⟩, ⟨(1, 1)⟩]⟩]).1.map
        (fun dc => (dc.vertexCount, dc.buffer.data.length)) = [(3, 6)] ∧
    (3 : Nat) ≠ 6 := by
  refine ⟨rfl, by decide⟩

/-- Claim C5, amended.  The vulkan Record step draws the cached buffer of
each object with exactly the vertex count of that buffer; the wgpu Record
step binds the cached buffer but always draws the fixed range 0..3,
regardless of the buffer length. -/
theorem draw_vertex_counts_per_backend :
    (∀ (s : Vulkan.ExecutorState) (objs : List GameObject)
        (dc : Vulkan.DrawCall),
      dc ∈ (Vulkan.fill_render_pass s objs).1 →
        dc.vertexCount = dc.buffer.len) ∧
    (∀ (t : Wgpu.ExecState) (objs : List GameObject) (dc : Wgpu.WDrawCall),
      dc ∈ (Wgpu.wfill_render_pass t objs).1 →
        dc.firstVertex = 0 ∧ dc.vertexCount = 3) := by
  constructor
  · intro s objs dc h
    exact Vulkan.recordObjects_draws objs _ dc (by
      simpa [Vulkan.fill_render_pass] using h)
  · intro t objs dc h
    exact Wgpu.wrecordObjects_draws objs _ dc (by
      simpa [Wgpu.wfill_render_pass] using h)

/-- Claim C5, witness: the draw recorded for a one-vertex object. -/
theorem draw_vertex_counts_witness :
    ((⟨⟨0, [⟨(0, 0)⟩]⟩, 1⟩ : Vulkan.DrawCall).vertexCount
      = (⟨0, [⟨(0, 0)⟩]⟩ : Vulkan.Subbuffer).len) ∧
    ((⟨⟨0, [⟨(0, 0)⟩]⟩, 0, 3⟩ : Wgpu.WDrawCall).firstVertex = 0 ∧
      (⟨⟨0, [⟨(0, 0)⟩]⟩, 0, 3⟩ : Wgpu.WDrawCall).vertexCount = 3) :=
  ⟨draw_vertex_counts_per_backend.1 Vulkan.ExecutorState.new
      [⟨4, [⟨(0, 0)⟩]⟩] _ (by decide),
   draw_vertex_counts_per_backend.2 Wgpu.ExecState.new
      [⟨4, [⟨(0, 0)⟩]⟩] _ (by decide)⟩

/-- Claim C2, amended.  Whenever execute_buffer executes GPU work, the
work waits on the token taken from the last_frame_fence slot (the
previous outstanding fence if the slot held one, else a fresh sync::now)
joined with the target-acquisition signal; on a Done return the slot is
left holding a fresh, already-complete sync::now token — the fence future
that actually represents this submission is produced by the flush and
discarded.  The slot being an Option, it holds 0 or 1 token at all
times. -/
theorem submit_waits_previous_and_refills_now
    (s : Vulkan.ExecutorState) (env : Vulkan.FrameEnv) (objs : List GameObject)
    (subId : Nat) (r : Vulkan.BufferExecutorResult) (s' : Vulkan.ExecutorState)
    (d : List Vulkan.DrawCall) (info : Vulkan.SubmitInfo)
    (fp : Option Vulkan.GpuToken)
    (h : Vulkan.execute_buffer s env objs subId = .ret r s' d (some info) fp) :
    info.waitedOnPrevious = s.last_frame_fence.getD .now ∧
    info.joinedAcquireSignal = true ∧
    (r = .Done → s'.last_frame_fence = some .now ∧ fp = some (.fenceOf subId)) := by
  obtain ⟨acq, rec, exe, fl⟩ := env
  cases acq with
  | none =>
      exfalso
      simp [Vulkan.execute_buffer] at h
  | some a =>
      by_cases ha : a.2 = true
      · cases hf : s.last_frame_fence with
        | none =>
            exfalso
            simp [Vulkan.execute_buffer, ha, hf] at h
        | some tok =>
            exfalso
            simp [Vulkan.execute_buffer, ha, hf] at h
      · cases rec with
        | false =>
            exfalso
            simp [Vulkan.execute_buffer, ha] at h
        | true =>
            cases exe with
            | false =>
                exfalso
                simp [Vulkan.execute_buffer, ha] at h
            | true =>
                cases fl with
                | ok =>
                    simp only [Vulkan.execute_buffer, ha, if_false,
                      if_true, Bool.false_eq_true] at h
                    rw [Vulkan.FrameStep.ret.injEq] at h
                    obtain ⟨hr, hs', hd, hinfo, hfp⟩ := h
                    injection hinfo with hinfo
                    subst hinfo
                    refine ⟨?_, rfl, ?_⟩
                    · show (Vulkan.fill_render_pass s
                        objs).2.last_frame_fence.getD .now = _
                      rw [Vulkan.fill_fence]
                    · intro _
                      exact ⟨hs' ▸ rfl, hfp.symm⟩
                | outOfDate =>
                    exfalso
                    simp [Vulkan.execute_buffer, ha] at h
                | otherError =>
                    simp only [Vulkan.execute_buffer, ha, if_false,
                      if_true, Bool.false_eq_true] at h
                    rw [Vulkan.FrameStep.ret.injEq] at h
                    obtain ⟨hr, hs', hd, hinfo, hfp⟩ := h
                    injection hinfo with hinfo
                    subst hinfo
                    refine ⟨?_, rfl, ?_⟩
                    · show (Vulkan.fill_render_pass s
                        objs).2.last_frame_fence.getD .now = _
                      rw [Vulkan.fill_fence]
                    · intro hdone
                      exact absurd (hr.trans hdone) (by decide)

/-- Claim C2, witness: the submission of frame 7 over a fresh executor. -/
theorem submit_waits_previous_witness :
    (Vulkan.SubmitInfo.mk .now true).waitedOnPrevious
      = Vulkan.ExecutorState.new.last_frame_fence.getD .now ∧
    (Vulkan.SubmitInfo.mk .now true).joinedAcquireSignal = true ∧
    (Vulkan.BufferExecutorResult.Done = .Done →
      (⟨[], 0, some .now⟩ : Vulkan.ExecutorState).last_frame_fence
          = some .now ∧
      (some (Vulkan.GpuToken.fenceOf 7) : Option Vulkan.GpuToken)
          = some (.fenceOf 7)) :=
  submit_waits_previous_and_refills_now Vulkan.ExecutorState.new
    ⟨some (0, false), true, true, .ok⟩ [] 7 .Done ⟨[], 0, some .now⟩ []
    ⟨.now, true⟩ (some (.fenceOf 7)) rfl

/-- Claim C6.  Recreate is a BufferExecutorResult variant distinct from
Done and Fail, not an error; and since the Engine loop discards the draw
result, a frame that returns Recreate leaves the loop running: the next
Draw event runs execute_buffer again (beginning with acquisition) on the
remaining frames. -/
theorem recreate_nonfatal_loop_continues
    (s s' : Vulkan.ExecutorState) (env : Vulkan.FrameEnv)
    (objs : List GameObject) (rest : List (Vulkan.FrameEnv × List GameObject))
    (subId : Nat) (d : List Vulkan.DrawCall) (sub : Option Vulkan.SubmitInfo)
    (fp : Option Vulkan.GpuToken)
    (h : Vulkan.execute_buffer s env objs subId = .ret .Recreate s' d sub fp) :
    Vulkan.BufferExecutorResult.Recreate ≠ .Done ∧
    Vulkan.BufferExecutorResult.Recreate ≠ .Fail ∧
    Vulkan.runDraws s ((env, objs) :: rest) subId
      = .Recreate :: Vulkan.runDraws s' rest (subId + 1) := by
  refine ⟨by decide, by decide, ?_⟩
  simp only [Vulkan.runDraws, h]

/-- Claim C6, witness: a suboptimal acquire (Recreate) followed by a clean
frame; the loop emits both results. -/
theorem recreate_nonfatal_witness :
    Vulkan.BufferExecutorResult.Recreate ≠ .Done ∧
    Vulkan.BufferExecutorResult.Recreate ≠ .Fail ∧
    Vulkan.runDraws Vulkan.ExecutorState.new
        [(⟨some (0, true), true, true, .ok⟩, []),
          (⟨some (0, false), true, true, .ok⟩, [])] 0
      = .Recreate :: Vulkan.runDraws Vulkan.ExecutorState.new
          [(⟨some (0, false), true, true, .ok⟩, [])] 1 :=
  recreate_nonfatal_loop_continues Vulkan.ExecutorState.new
    Vulkan.ExecutorState.new ⟨some (0, true), true, true, .ok⟩ []
    [(⟨some (0, false), true, true, .ok⟩, [])] 0 [] none none rfl

/-- Claim C8.  Calling the backend draw operation while the toolkit is
absent (the Uninitialized state every backend is constructed in) hits the
Option::unwrap in get_toolkit and panics, for either backend and every
scene argument; once a toolkit is installed (Ready), draw never
panics. -/
theorem draw_uninitialized_panics :
    (∀ size, (VulkanBackend.new size).test_draw = .panicked) ∧
    (∀ size scene, (WgpuBackend.new size).draw_scene scene = .panicked) ∧
    (∀ (b : VulkanBackend) (tk : VulkanoToolkit),
      b.vulkano_toolkit = some tk → b.test_draw ≠ .panicked) ∧
    (∀ (b : WgpuBackend) (tk : Wgpu.ExecState) (scene : List GameObject),
      b.toolkit = some tk → b.draw_scene scene ≠ .panicked) := by
  refine ⟨fun _ => rfl, fun _ _ => rfl, ?_, ?_⟩
  · intro b tk h
    simp [VulkanBackend.test_draw, h]
  · intro b tk scene h
    simp [WgpuBackend.draw_scene, h]

/-- Claim C8, witness: both freshly constructed backends panic on draw;
both initialized backends do not. -/
theorem draw_uninitialized_panics_witness :
    (VulkanBackend.new Size.default).test_draw = .panicked ∧
    (WgpuBackend.new Size.default).draw_scene [] = .panicked ∧
    (⟨Size.default, some ⟨Vulkan.ExecutorState.new⟩⟩ :
        VulkanBackend).test_draw ≠ .panicked ∧
    (⟨Size.default, some Wgpu.ExecState.new⟩ :
        WgpuBackend).draw_scene [] ≠ .panicked :=
  ⟨draw_uninitialized_panics.1 Size.default,
   draw_uninitialized_panics.2.1 Size.default [],
   draw_uninitialized_panics.2.2.1 _ ⟨Vulkan.ExecutorState.new⟩ rfl,
   draw_uninitialized_panics.2.2.2 _ Wgpu.ExecState.new [] rfl⟩

end Thrustler
